import Mathlib

/-!
Shallow embedding of the Openai-Chat-app repository (React Native / TypeScript):
the conversation store (`ChatContext`), the completion client (`services/openai.ts`)
and the send-message error mapping of the chat screen, together with proofs about
the frozen claims C1..C10 on this code.

Conventions of the embedding:
* TypeScript arrays become `List`, optional fields become `Option`.
* JavaScript numbers occurring in the options (`max_tokens`, `temperature`, ...)
  are modelled as `Int`: the code never computes with them beyond the falsiness
  test `options.max_tokens || 4096`, which `jsOrInt` embeds (`0` is falsy).
* The two React state cells of `ChatProvider` (`conversations`,
  `currentConversation`) plus `selectedModel` form one record `ChatState`; each
  store operation is a pure function `ChatState → ChatState`, exactly mirroring
  the bodies of the corresponding closures in the provider.
* `createConversation` takes the identifier as an argument: in the source it is
  `Date.now().toString()`, a value supplied by the millisecond clock, which may
  repeat across calls in the same millisecond.
* Network effects are modelled by passing the outcome of the `fetch` call
  (an HTTP response, or a transport error) as an explicit argument; a function
  that can throw returns `Except String`.
-/

set_option maxRecDepth 20000

namespace ChatApp

/-- Detail hint of an image content part: "low" | "high" | "auto". -/
inductive Detail
  | low
  | high
  | auto
deriving DecidableEq

/-- MessageContentPart of ChatContext: a text part, or an image part holding a
URL and an optional detail hint. -/
inductive MessageContentPart
  | text (text : String)
  | image_url (url : String) (detail : Option Detail)
deriving DecidableEq

/-- Role of a store message: "user" | "assistant". -/
inductive Role
  | user
  | assistant
deriving DecidableEq

/-- Content of a message: a plain string, or an ordered list of content parts. -/
inductive MessageContent
  | str (s : String)
  | parts (ps : List MessageContentPart)
deriving DecidableEq

/-- Message of ChatContext. -/
structure Message where
  id : String
  role : Role
  content : MessageContent
deriving DecidableEq

/-- Conversation of ChatContext. -/
structure Conversation where
  id : String
  title : String
  messages : List Message
  model : String
deriving DecidableEq

/-- The state held by ChatProvider: the two React state cells `conversations`
and `currentConversation`, plus `selectedModel`. -/
structure ChatState where
  conversations : List Conversation
  currentConversation : Option Conversation
  selectedModel : String
deriving DecidableEq

/-- Initial provider state: `useState([])`, `useState(null)`,
`useState("gpt-4o-mini")`. -/
def initialState : ChatState :=
  { conversations := [], currentConversation := none, selectedModel := "gpt-4o-mini" }

/-- createConversation: inserts a fresh conversation (title "New Chat", empty
messages, the currently selected model) at the head of the collection and makes
it current. In the source the identifier is `Date.now().toString()`; it is the
argument `id` here. -/
def createConversation (id : String) (s : ChatState) : ChatState :=
  let newConv : Conversation :=
    { id := id, title := "New Chat", messages := [], model := s.selectedModel }
  { s with
    conversations := newConv :: s.conversations
    currentConversation := some newConv }

/-- firstText embeds `content.find((part) => part.type === "text")` followed by
the projection `.text` of the found part. -/
def firstText : List MessageContentPart → Option String
  | [] => none
  | MessageContentPart.text t :: _ => some t
  | MessageContentPart.image_url _ _ :: rest => firstText rest

/-- extractMessageText: the local `messageText` of addMessage — the content
itself when it is a string, otherwise the first text part's text, falling back
to the literal "Image" when no text part exists. -/
def extractMessageText : MessageContent → String
  | MessageContent.str s => s
  | MessageContent.parts ps =>
    match firstText ps with
    | some t => t
    | none => "Image"

/-- deriveTitle embeds
`messageText.slice(0, 30) + (messageText.length > 30 ? "..." : "")`. -/
def deriveTitle (t : String) : String :=
  t.take 30 ++ (if t.length > 30 then "..." else "")

/-- replaceById embeds the arrow function
`(c) => (c.id === updated.id ? updated : c)` that the three mutating store
operations pass to `prev.map` to propagate the updated current conversation
into the collection. -/
def replaceById (updated : Conversation) (c : Conversation) : Conversation :=
  if c.id == updated.id then updated else c

/-- addMessage: no-op without a current conversation; otherwise appends the
message, overwriting the title with the derived one exactly when the current
message sequence is empty and the message's role is "user", and propagates the
updated conversation into the collection by identifier match. -/
def addMessage (message : Message) (s : ChatState) : ChatState :=
  match s.currentConversation with
  | none => s
  | some cur =>
    let messageText := extractMessageText message.content
    let updated : Conversation :=
      { cur with
        messages := cur.messages ++ [message]
        title :=
          if cur.messages.length == 0 && (message.role == Role.user) then
            deriveTitle messageText
          else cur.title }
    { s with
      currentConversation := some updated
      conversations := s.conversations.map (replaceById updated) }

/-- setLast embeds the guarded index assignment
`if (messages.length > 0) messages[messages.length - 1] = { ...last, content }`
on a copy of the array: the last element's content is replaced, its identifier
and role are kept, and the empty list is left unchanged. -/
def setLast (content : MessageContent) : List Message → List Message
  | [] => []
  | [m] => [{ m with content := content }]
  | m :: m2 :: rest => m :: setLast content (m2 :: rest)

/-- updateLastMessage: no-op without a current conversation; otherwise replaces
the content of the final message (if any) and propagates the updated
conversation into the collection by identifier match. -/
def updateLastMessage (content : MessageContent) (s : ChatState) : ChatState :=
  match s.currentConversation with
  | none => s
  | some cur =>
    let updated : Conversation := { cur with messages := setLast content cur.messages }
    { s with
      currentConversation := some updated
      conversations := s.conversations.map (replaceById updated) }

/-- selectConversation: finds the conversation by identifier; if present, makes
it current and adopts its model as the selected model; otherwise a no-op. -/
def selectConversation (id : String) (s : ChatState) : ChatState :=
  match s.conversations.find? (fun c => c.id == id) with
  | some conv => { s with currentConversation := some conv, selectedModel := conv.model }
  | none => s

/-- deleteConversation: removes every conversation with the given identifier
from the collection; clears the current pointer exactly when the current
conversation carries that identifier. -/
def deleteConversation (id : String) (s : ChatState) : ChatState :=
  { s with
    conversations := s.conversations.filter (fun c => c.id != id)
    currentConversation :=
      match s.currentConversation with
      | some c => if c.id == id then none else some c
      | none => none }

/-- clearCurrentConversation: no-op without a current conversation; otherwise
empties its message sequence, resets its title to "New Chat" (identifier and
model untouched) and propagates the cleared conversation into the collection by
identifier match. -/
def clearCurrentConversation (s : ChatState) : ChatState :=
  match s.currentConversation with
  | none => s
  | some cur =>
    let clearedConversation : Conversation := { cur with messages := [], title := "New Chat" }
    { s with
      currentConversation := some clearedConversation
      conversations := s.conversations.map (replaceById clearedConversation) }

/-- applyMessages folds a sequence of addMessage calls over a state. -/
def applyMessages (msgs : List Message) (s : ChatState) : ChatState :=
  msgs.foldl (fun t m => addMessage m t) s

/-- Reachable s: s arises from the initial provider state by some sequence of
the six store operations, with arbitrary arguments (the identifier of each
createConversation is whatever the millisecond clock supplied). -/
inductive Reachable : ChatState → Prop
  | init : Reachable initialState
  | create (id : String) {s : ChatState} : Reachable s → Reachable (createConversation id s)
  | add (m : Message) {s : ChatState} : Reachable s → Reachable (addMessage m s)
  | updateLast (c : MessageContent) {s : ChatState} :
      Reachable s → Reachable (updateLastMessage c s)
  | select (id : String) {s : ChatState} : Reachable s → Reachable (selectConversation id s)
  | del (id : String) {s : ChatState} : Reachable s → Reachable (deleteConversation id s)
  | clear {s : ChatState} : Reachable s → Reachable (clearCurrentConversation s)

/-- ReachableFresh s: like Reachable, but every createConversation call receives
an identifier that no conversation in the collection already carries (the case
whenever the millisecond clock advanced since the previous creation). -/
inductive ReachableFresh : ChatState → Prop
  | init : ReachableFresh initialState
  | create (id : String) {s : ChatState} :
      ReachableFresh s → (∀ c ∈ s.conversations, c.id ≠ id) →
      ReachableFresh (createConversation id s)
  | add (m : Message) {s : ChatState} : ReachableFresh s → ReachableFresh (addMessage m s)
  | updateLast (c : MessageContent) {s : ChatState} :
      ReachableFresh s → ReachableFresh (updateLastMessage c s)
  | select (id : String) {s : ChatState} :
      ReachableFresh s → ReachableFresh (selectConversation id s)
  | del (id : String) {s : ChatState} :
      ReachableFresh s → ReachableFresh (deleteConversation id s)
  | clear {s : ChatState} : ReachableFresh s → ReachableFresh (clearCurrentConversation s)

/-- Role of a completion-client message (services/openai.ts): adds "system". -/
inductive ChatRole
  | system
  | user
  | assistant
deriving DecidableEq

/-- ChatMessage of the completion client. Its content type redeclares, field
for field, the same shape as the store's MessageContent, so the latter is
reused. -/
structure ChatMessage where
  role : ChatRole
  content : MessageContent
deriving DecidableEq

/-- ChatCompletionOptions of services/openai.ts: the required model and
messages, the optional sampling fields, and the (never forwarded) stream
flag. -/
structure ChatCompletionOptions where
  model : String
  messages : List ChatMessage
  max_tokens : Option Int
  temperature : Option Int
  top_p : Option Int
  frequency_penalty : Option Int
  presence_penalty : Option Int
  stream : Option Bool
deriving DecidableEq

/-- Message field of a completion choice. -/
structure ChoiceMessage where
  role : String
  content : String
deriving DecidableEq

/-- ChatCompletionChoice of services/openai.ts. -/
structure ChatCompletionChoice where
  index : Int
  message : ChoiceMessage
  finish_reason : String
deriving DecidableEq

/-- Usage block of a completion response. -/
structure CompletionUsage where
  prompt_tokens : Int
  completion_tokens : Int
  total_tokens : Int
deriving DecidableEq

/-- ChatCompletionResponse of services/openai.ts. -/
structure ChatCompletionResponse where
  id : String
  object : String
  created : Int
  model : String
  choices : List ChatCompletionChoice
  usage : CompletionUsage
deriving DecidableEq

/-- jsOrInt embeds the JavaScript expression `a || b` on a possibly-undefined
number `a`: undefined and 0 are falsy, every other integer is truthy. -/
def jsOrInt (a : Option Int) (b : Int) : Int :=
  match a with
  | some n => if n = 0 then b else n
  | none => b

/-- jsOrString embeds the JavaScript expression `a || b` on a
possibly-undefined string `a`: undefined and the empty string are falsy. -/
def jsOrString (a : Option String) (b : String) : String :=
  match a with
  | some s => if s = "" then b else s
  | none => b

/-- The object literal that chat.completions.create passes to JSON.stringify:
model, messages, `options.max_tokens || 4096`, and the four optional sampling
fields copied through (possibly undefined). The stream field of the options
does not occur in the literal. -/
structure ChatCompletionRequestBody where
  model : String
  messages : List ChatMessage
  max_tokens : Int
  temperature : Option Int
  top_p : Option Int
  frequency_penalty : Option Int
  presence_penalty : Option Int
deriving DecidableEq

/-- chatCompletionRequestBody embeds the construction of the request body in
chat.completions.create. -/
def chatCompletionRequestBody (o : ChatCompletionOptions) : ChatCompletionRequestBody :=
  { model := o.model
    messages := o.messages
    max_tokens := jsOrInt o.max_tokens 4096
    temperature := o.temperature
    top_p := o.top_p
    frequency_penalty := o.frequency_penalty
    presence_penalty := o.presence_penalty }

/-- sentRequestKeys: the set of keys of the JSON text actually sent, in literal
order. JSON.stringify omits every key whose value is undefined, so the four
optional fields appear exactly when they are set; model, messages and
max_tokens (defaulted to 4096) always appear. -/
def sentRequestKeys (o : ChatCompletionOptions) : List String :=
  let b := chatCompletionRequestBody o
  ["model", "messages", "max_tokens"]
    ++ (if b.temperature.isSome then ["temperature"] else [])
    ++ (if b.top_p.isSome then ["top_p"] else [])
    ++ (if b.frequency_penalty.isSome then ["frequency_penalty"] else [])
    ++ (if b.presence_penalty.isSome then ["presence_penalty"] else [])

/-- HTTP response observed by chat.completions.create, as far as the code
inspects it: status, statusText, the value of `errorData?.error?.message` after
`response.json().catch(() => ({}))` on the error path (none covers both a
non-JSON body and a JSON body without that field), and the result of parsing
the body as a completion on the success path (error = the rejection message of
`response.json()`). -/
structure CompletionsHttpResponse where
  status : Nat
  statusText : String
  errorMessage : Option String
  payload : Except String ChatCompletionResponse

/-- Outcome of a fetch call: an HTTP response, or a transport-level rejection
(e.g. no network) carrying the underlying error message. -/
inductive FetchResult (ρ : Type)
  | response (r : ρ)
  | transportError (msg : String)

/-- respOk embeds fetch's Response.ok: the status lies in the 2xx range. -/
def respOk (status : Nat) : Bool :=
  decide (200 ≤ status) && decide (status < 300)

/-- httpStatusFallback embeds the template string
`HTTP ${response.status}: ${response.statusText}`. -/
def httpStatusFallback (status : Nat) (statusText : String) : String :=
  "HTTP " ++ toString status ++ ": " ++ statusText

/-- completionsCreate embeds chat.completions.create as a function of the
options and of the fetch outcome: a transport failure propagates; a non-ok
response fails with `errorData?.error?.message || "HTTP status: statusText"`;
an ok response returns the parsed body (or fails with the parse rejection). -/
def completionsCreate (_options : ChatCompletionOptions) :
    FetchResult CompletionsHttpResponse → Except String ChatCompletionResponse
  | FetchResult.transportError msg => Except.error msg
  | FetchResult.response r =>
    if respOk r.status then r.payload
    else Except.error (jsOrString r.errorMessage (httpStatusFallback r.status r.statusText))

/-- HTTP response observed by models.list: only the status and whether
`response.json()` settles are inspected (error = its rejection message). -/
structure ModelsHttpResponse where
  status : Nat
  bodyParse : Except String Unit

/-- modelsList embeds models.list: a transport failure propagates; a non-ok
response fails with the fixed message "Failed to fetch models"; an ok response
returns the body parse result. -/
def modelsList : FetchResult ModelsHttpResponse → Except String Unit
  | FetchResult.transportError msg => Except.error msg
  | FetchResult.response r =>
    if respOk r.status then r.bodyParse
    else Except.error "Failed to fetch models"

/-- validateApiKey embeds the try/catch around models.list: true when the call
settles without failing, false on any failure; the failure's reason is
discarded and never propagated (the return type is Bool, not Except). -/
def validateApiKey (outcome : FetchResult ModelsHttpResponse) : Bool :=
  match modelsList outcome with
  | Except.ok _ => true
  | Except.error _ => false

/-- strIncludes embeds JavaScript's `s.includes(sub)`: sub occurs contiguously
in s, i.e. it is a prefix of some tail of s. -/
def strIncludes (s sub : String) : Bool :=
  s.data.tails.any (fun t => sub.data.isPrefixOf t)

/-- mapSendError embeds the catch block of sendMessage in the chat screen: the
error message is pattern-matched by substring to select a user-facing string;
an unmatched non-empty message is shown raw; an empty message falls back to the
generic string. -/
def mapSendError (selectedModel : String) (errMsg : String) : String :=
  if strIncludes errMsg "401" || strIncludes errMsg "Unauthorized" then
    "Invalid API key. Please check your API key and try again."
  else if strIncludes errMsg "429" then
    "Rate limit exceeded. Please wait a moment and try again."
  else if strIncludes errMsg "500" || strIncludes errMsg "502" || strIncludes errMsg "503" then
    "OpenAI server error. Please try again later."
  else if strIncludes errMsg "model" then
    "Model \"" ++ selectedModel ++ "\" is not available. Please select a different model."
  else if errMsg != "" then errMsg
  else "Something went wrong. Please try again."

/-- errorAssistantMessage embeds the synthetic assistant message the catch
block appends: role "assistant", content `⚠️ Error: ${errorMessage}`. -/
def errorAssistantMessage (id : String) (userFacing : String) : Message :=
  { id := id, role := Role.assistant, content := MessageContent.str ("⚠️ Error: " ++ userFacing) }

/-! ## Helper lemmas shared by the claim theorems -/

/-- Replacing by identifier twice with the same conversation is the same as
replacing once. -/
theorem replaceById_replaceById (u c : Conversation) :
    replaceById u (replaceById u c) = replaceById u c := by
  unfold replaceById
  cases h : c.id == u.id <;> simp [h]

/-- Mapping replaceById twice over a collection is the same as mapping once. -/
theorem map_replaceById_idem (u : Conversation) (l : List Conversation) :
    (l.map (replaceById u)).map (replaceById u) = l.map (replaceById u) := by
  rw [List.map_map]
  exact List.map_congr_left fun c _ => replaceById_replaceById u c

/-- replaceById leaves every identifier in the collection unchanged. -/
theorem id_replaceById (u c : Conversation) : (replaceById u c).id = c.id := by
  unfold replaceById
  cases h : c.id == u.id
  · simp
  · simp [(beq_iff_eq.mp h).symm]

/-- Mapping replaceById over a collection leaves the identifier sequence
unchanged. -/
theorem ids_map_replaceById (u : Conversation) (l : List Conversation) :
    (l.map (replaceById u)).map Conversation.id = l.map Conversation.id := by
  rw [List.map_map]
  exact List.map_congr_left fun c _ => id_replaceById u c

/-- A conversation of the collection whose identifier matches is sent to the
replacement by replaceById, so the replacement is in the mapped collection. -/
theorem mem_map_replaceById (u c : Conversation) (l : List Conversation)
    (hmem : c ∈ l) (hid : c.id = u.id) : u ∈ l.map (replaceById u) :=
  List.mem_map.mpr ⟨c, hmem, by simp [replaceById, hid]⟩

/-- Replacing the last message's content twice with the same content is the
same as replacing it once. -/
theorem setLast_idem (content : MessageContent) (ms : List Message) :
    setLast content (setLast content ms) = setLast content ms := by
  induction ms with
  | nil => rfl
  | cons m tail ih =>
    cases tail with
    | nil => rfl
    | cons m2 rest =>
      obtain ⟨y, t, hyt⟩ : ∃ y t, setLast content (m2 :: rest) = y :: t := by
        cases rest with
        | nil => exact ⟨_, _, rfl⟩
        | cons a b => exact ⟨_, _, rfl⟩
      calc setLast content (setLast content (m :: m2 :: rest))
          = setLast content (m :: setLast content (m2 :: rest)) := rfl
        _ = setLast content (m :: y :: t) := by rw [hyt]
        _ = m :: setLast content (y :: t) := rfl
        _ = m :: setLast content (setLast content (m2 :: rest)) := by rw [hyt]
        _ = m :: setLast content (m2 :: rest) := by rw [ih]
        _ = setLast content (m :: m2 :: rest) := rfl

/-! ## Claim theorems -/

/-- C7: updateLastMessage is idempotent: applying it twice with the same
content yields the very same store state — in particular the same message
sequence in the current conversation and in every conversation of the
collection — as applying it once. -/
theorem updateLastMessage_idempotent (content : MessageContent) (s : ChatState) :
    updateLastMessage content (updateLastMessage content s)
      = updateLastMessage content s := by
  cases h : s.currentConversation with
  | none => simp [updateLastMessage, h]
  | some cur =>
    simp only [updateLastMessage, h]
    simp [setLast_idem, map_replaceById_idem]
    intro a _
    exact replaceById_replaceById _ a

/-- C8: clearCurrentConversation is a no-op when no conversation is current;
otherwise the current pointer becomes the same conversation with an empty
message sequence and title "New Chat" (the record literal keeps its identifier
and model), the selected model is untouched, and the collection is the old one
with exactly the entries carrying that identifier replaced by the cleared
conversation — every other conversation is unchanged. -/
theorem clearCurrentConversation_spec (s : ChatState) :
    (s.currentConversation = none → clearCurrentConversation s = s) ∧
    (∀ c, s.currentConversation = some c →
      (clearCurrentConversation s).currentConversation
          = some { id := c.id, title := "New Chat", messages := [], model := c.model } ∧
      (clearCurrentConversation s).selectedModel = s.selectedModel ∧
      (clearCurrentConversation s).conversations
          = s.conversations.map fun x =>
              if x.id = c.id then
                { id := c.id, title := "New Chat", messages := [], model := c.model }
              else x) := by
  constructor
  · intro h
    simp [clearCurrentConversation, h]
  · intro c h
    refine ⟨by simp [clearCurrentConversation, h], by simp [clearCurrentConversation, h], ?_⟩
    simp only [clearCurrentConversation, h]
    refine List.map_congr_left fun x _ => ?_
    by_cases hx : x.id = c.id <;> simp [replaceById, hx]

/-- Witness for C8 at a concrete state: one conversation with one message is
cleared back to the empty "New Chat" conversation. -/
theorem clearCurrentConversation_spec_witness :
    (clearCurrentConversation
        (addMessage { id := "m", role := Role.user, content := MessageContent.str "hi" }
          (createConversation "1" initialState))).currentConversation
      = some { id := "1", title := "New Chat", messages := [], model := "gpt-4o-mini" } ∧
    (clearCurrentConversation
        (addMessage { id := "m", role := Role.user, content := MessageContent.str "hi" }
          (createConversation "1" initialState))).selectedModel = "gpt-4o-mini" ∧
    (clearCurrentConversation
        (addMessage { id := "m", role := Role.user, content := MessageContent.str "hi" }
          (createConversation "1" initialState))).conversations
      = [{ id := "1", title := "New Chat", messages := [], model := "gpt-4o-mini" }] := by
  have h := (clearCurrentConversation_spec
      (addMessage { id := "m", role := Role.user, content := MessageContent.str "hi" }
        (createConversation "1" initialState))).2
      { id := "1", title := "hi",
        messages := [{ id := "m", role := Role.user, content := MessageContent.str "hi" }],
        model := "gpt-4o-mini" } (by decide)
  exact ⟨h.1, h.2.1, by rw [h.2.2]; decide⟩

/-- C6: deleting the identifier of the current conversation nulls the current
pointer, removes every conversation with that identifier from the collection,
and a subsequent selectConversation of the same identifier is a no-op. -/
theorem deleteCurrent_spec (s : ChatState) (c : Conversation) (i : String)
    (hcur : s.currentConversation = some c) (hid : c.id = i) :
    (deleteConversation i s).currentConversation = none ∧
    (∀ x ∈ (deleteConversation i s).conversations, x.id ≠ i) ∧
    selectConversation i (deleteConversation i s) = deleteConversation i s := by
  have h2 : ∀ x ∈ (deleteConversation i s).conversations, x.id ≠ i := by
    intro x hx
    simp only [deleteConversation, List.mem_filter] at hx
    exact bne_iff_ne.mp hx.2
  refine ⟨by simp [deleteConversation, hcur, hid], h2, ?_⟩
  have hfind : (deleteConversation i s).conversations.find? (fun c => c.id == i) = none :=
    List.find?_eq_none.mpr fun x hx => by simpa using h2 x hx
  simp [selectConversation, hfind]

/-- Witness for C6 at a concrete state: the freshly created conversation "1" is
current, deleting "1" empties everything, and re-selecting "1" changes
nothing. -/
theorem deleteCurrent_spec_witness :
    (deleteConversation "1" (createConversation "1" initialState)).currentConversation = none ∧
    (∀ x ∈ (deleteConversation "1" (createConversation "1" initialState)).conversations,
        x.id ≠ "1") ∧
    selectConversation "1" (deleteConversation "1" (createConversation "1" initialState))
      = deleteConversation "1" (createConversation "1" initialState) :=
  deleteCurrent_spec (createConversation "1" initialState)
    { id := "1", title := "New Chat", messages := [], model := "gpt-4o-mini" } "1" rfl rfl

/-- C4: in every state reachable from the initial store state by any sequence
of the six store operations, a non-null current conversation equals some member
of the collection. -/
theorem reachable_current_mem {s : ChatState} (h : Reachable s) :
    ∀ c, s.currentConversation = some c → c ∈ s.conversations := by
  induction h with
  | init =>
    intro c hc
    simp [initialState] at hc
  | create id hr ih =>
    intro c hc
    simp only [createConversation, Option.some.injEq] at hc
    simp [createConversation, ← hc]
  | add m hr ih =>
    rename_i s'
    intro c hc
    cases hcur : s'.currentConversation with
    | none =>
      simp only [addMessage, hcur] at hc
      exact absurd hc (by simp)
    | some cur =>
      simp only [addMessage, hcur, Option.some.injEq] at hc ⊢
      exact hc ▸ mem_map_replaceById _ cur s'.conversations (ih cur hcur) rfl
  | updateLast content hr ih =>
    rename_i s'
    intro c hc
    cases hcur : s'.currentConversation with
    | none =>
      simp only [updateLastMessage, hcur] at hc
      exact absurd hc (by simp)
    | some cur =>
      simp only [updateLastMessage, hcur, Option.some.injEq] at hc ⊢
      exact hc ▸ mem_map_replaceById _ cur s'.conversations (ih cur hcur) rfl
  | select id hr ih =>
    rename_i s'
    intro c hc
    cases hfind : s'.conversations.find? (fun c => c.id == id) with
    | none =>
      simp only [selectConversation, hfind] at hc ⊢
      exact ih c hc
    | some conv =>
      simp only [selectConversation, hfind, Option.some.injEq] at hc ⊢
      exact hc ▸ List.mem_of_find?_eq_some hfind
  | del id hr ih =>
    rename_i s'
    intro c hc
    cases hcur : s'.currentConversation with
    | none => simp [deleteConversation, hcur] at hc
    | some cur =>
      simp only [deleteConversation, hcur] at hc ⊢
      cases heq : cur.id == id with
      | true => simp [heq] at hc
      | false =>
        simp only [heq, Bool.false_eq_true, if_false, Option.some.injEq] at hc
        subst hc
        exact List.mem_filter.mpr ⟨ih cur hcur, bne_iff_ne.mpr (beq_eq_false_iff_ne.mp heq)⟩
  | clear hr ih =>
    rename_i s'
    intro c hc
    cases hcur : s'.currentConversation with
    | none =>
      simp only [clearCurrentConversation, hcur] at hc
      exact absurd hc (by simp)
    | some cur =>
      simp only [clearCurrentConversation, hcur, Option.some.injEq] at hc ⊢
      exact hc ▸ mem_map_replaceById _ cur s'.conversations (ih cur hcur) rfl

/-- Witness for C4 at a concrete reachable state: after one create, the fresh
conversation is current and is a member of the collection. -/
theorem reachable_current_mem_witness :
    ({ id := "1", title := "New Chat", messages := [], model := "gpt-4o-mini" } : Conversation)
      ∈ (createConversation "1" initialState).conversations :=
  reachable_current_mem (Reachable.create "1" Reachable.init) _ rfl

/-- addMessage leaves the identifier sequence of the collection unchanged. -/
theorem addMessage_ids (m : Message) (s : ChatState) :
    (addMessage m s).conversations.map Conversation.id
      = s.conversations.map Conversation.id := by
  cases hcur : s.currentConversation with
  | none => simp [addMessage, hcur]
  | some cur =>
    simp [addMessage, hcur]
    intro a _
    exact id_replaceById _ a

/-- updateLastMessage leaves the identifier sequence of the collection
unchanged. -/
theorem updateLastMessage_ids (content : MessageContent) (s : ChatState) :
    (updateLastMessage content s).conversations.map Conversation.id
      = s.conversations.map Conversation.id := by
  cases hcur : s.currentConversation with
  | none => simp [updateLastMessage, hcur]
  | some cur =>
    simp [updateLastMessage, hcur]
    intro a _
    exact id_replaceById _ a

/-- clearCurrentConversation leaves the identifier sequence of the collection
unchanged. -/
theorem clearCurrentConversation_ids (s : ChatState) :
    (clearCurrentConversation s).conversations.map Conversation.id
      = s.conversations.map Conversation.id := by
  cases hcur : s.currentConversation with
  | none => simp [clearCurrentConversation, hcur]
  | some cur =>
    simp [clearCurrentConversation, hcur]
    intro a _
    exact id_replaceById _ a

/-- selectConversation leaves the collection unchanged. -/
theorem selectConversation_conversations (id : String) (s : ChatState) :
    (selectConversation id s).conversations = s.conversations := by
  cases hfind : s.conversations.find? (fun c => c.id == id) with
  | none => simp [selectConversation, hfind]
  | some conv => simp [selectConversation, hfind]

/-- Under fresh identifiers, the identifier sequence of the collection has no
duplicate. -/
theorem reachableFresh_nodup_ids {s : ChatState} (h : ReachableFresh s) :
    (s.conversations.map Conversation.id).Nodup := by
  induction h with
  | init => simp [initialState]
  | create id hr hfresh ih =>
    rename_i s'
    simp only [createConversation, List.map_cons]
    exact List.nodup_cons.mpr
      ⟨fun hmem => by
        obtain ⟨c, hc, hcid⟩ := List.mem_map.mp hmem
        exact hfresh c hc hcid, ih⟩
  | add m hr ih =>
    rename_i s'
    rw [addMessage_ids]
    exact ih
  | updateLast content hr ih =>
    rename_i s'
    rw [updateLastMessage_ids]
    exact ih
  | select id hr ih =>
    rename_i s'
    rw [selectConversation_conversations]
    exact ih
  | del id hr ih =>
    rename_i s'
    exact List.Nodup.sublist
      (List.Sublist.map Conversation.id (List.filter_sublist s'.conversations)) ih
  | clear hr ih =>
    rename_i s'
    rw [clearCurrentConversation_ids]
    exact ih

/-- C3 counterexample: the claim fails as stated. The identifier of a new
conversation is `Date.now().toString()`, so two createConversation calls in the
same millisecond receive the same identifier; the resulting state is reachable
by a sequence of the store operations, yet its collection holds two
conversations with identifier "1". -/
theorem reachable_duplicate_ids_counterexample :
    Reachable (createConversation "1" (createConversation "1" initialState)) ∧
    ¬ (createConversation "1" (createConversation "1" initialState)).conversations.Pairwise
        (fun a b => a.id ≠ b.id) :=
  ⟨Reachable.create "1" (Reachable.create "1" Reachable.init), by decide⟩

/-- C3 (amended): in every state reachable from the initial store state by a
sequence of the six store operations in which every createConversation call
receives an identifier not already carried by a conversation of the collection
(the case whenever the millisecond clock advanced between creations), the
conversations of the collection are pairwise distinct by identifier. -/
theorem reachableFresh_pairwise_distinct_ids {s : ChatState} (h : ReachableFresh s) :
    s.conversations.Pairwise (fun a b => a.id ≠ b.id) := by
  have hnodup := reachableFresh_nodup_ids h
  rw [List.Nodup, List.pairwise_map] at hnodup
  exact hnodup

/-- Witness for the amended C3 at a concrete reachable state: two creations
with distinct identifiers yield a collection with pairwise distinct
identifiers. -/
theorem reachableFresh_pairwise_distinct_ids_witness :
    (createConversation "2" (createConversation "1" initialState)).conversations.Pairwise
      (fun a b => a.id ≠ b.id) :=
  reachableFresh_pairwise_distinct_ids
    (ReachableFresh.create "2"
      (ReachableFresh.create "1" ReachableFresh.init (by decide)) (by decide))

/-- Adding a message to a conversation that already holds messages leaves the
title unchanged and only appends. -/
theorem addMessage_nonempty (m : Message) (s : ChatState) (c : Conversation)
    (h : s.currentConversation = some c) (hne : c.messages ≠ []) :
    (addMessage m s).currentConversation = some { c with messages := c.messages ++ [m] } := by
  have hlen : (c.messages.length == 0) = false := by
    simp [List.length_eq_zero]
    exact hne
  simp [addMessage, h, hlen]

/-- Once the current conversation holds a message, any further sequence of
addMessage calls keeps the current pointer non-null, its title unchanged, and
its message sequence non-empty. -/
theorem applyMessages_preserves_title (msgs : List Message) :
    ∀ (s : ChatState) (c : Conversation), s.currentConversation = some c →
      c.messages ≠ [] →
      ∃ c', (applyMessages msgs s).currentConversation = some c' ∧
        c'.title = c.title ∧ c'.messages ≠ [] := by
  induction msgs with
  | nil => exact fun s c h hne => ⟨c, h, rfl, hne⟩
  | cons m rest ih =>
    intro s c h hne
    have step := addMessage_nonempty m s c h hne
    obtain ⟨c', hc', ht, hn⟩ := ih (addMessage m s) _ step (by simp)
    refine ⟨c', ?_, ht, hn⟩
    simpa [applyMessages] using hc'

/-- C1 (amended): for every sequence of addMessage calls applied to a freshly
created conversation, the final title is derived (30-character truncation with
ellipsis, "Image" fallback for a part list without text part) from the first
message of the sequence when that first message is user-authored; in every
other case — an empty sequence, or a first message authored by the assistant —
the title remains "New Chat", and no later addMessage call changes the title. -/
theorem title_from_first_added_message (i : String) (s : ChatState) (msgs : List Message) :
    ((applyMessages msgs (createConversation i s)).currentConversation.map Conversation.title)
      = some (match msgs with
          | [] => "New Chat"
          | m :: _ =>
            if m.role == Role.user then deriveTitle (extractMessageText m.content)
            else "New Chat") := by
  cases msgs with
  | nil => rfl
  | cons m rest =>
    have h1 : (addMessage m (createConversation i s)).currentConversation
        = some { id := i,
                 title := if m.role == Role.user then
                     deriveTitle (extractMessageText m.content)
                   else "New Chat",
                 messages := [m], model := s.selectedModel } := rfl
    obtain ⟨c', hc', ht, _⟩ :=
      applyMessages_preserves_title rest (addMessage m (createConversation i s)) _ h1
        (by simp)
    have hstep : applyMessages (m :: rest) (createConversation i s)
        = applyMessages rest (addMessage m (createConversation i s)) := by
      simp [applyMessages]
    rw [hstep, hc', Option.map_some']
    exact congrArg some ht

/-- claimC1Title formalizes the title C1 predicts, following the claim's words:
the truncated text of the first user-authored message of the sequence ("Image"
when that message's content is a part list with no text part), and the fresh
title "New Chat" when no user-authored message exists. -/
def claimC1Title (msgs : List Message) : String :=
  match msgs.find? (fun m => m.role == Role.user) with
  | some m => deriveTitle (extractMessageText m.content)
  | none => "New Chat"

/-- C1 counterexample: the claim fails as stated. Applied to a freshly created
conversation, the sequence [assistant "ok", user "hi"] has "hi" as the text of
its first user-authored message, yet the code derives a title only when the
first message overall is user-authored, so the title stays "New Chat". -/
theorem title_claim_counterexample :
    ((applyMessages
        [{ id := "a", role := Role.assistant, content := MessageContent.str "ok" },
         { id := "b", role := Role.user, content := MessageContent.str "hi" }]
        (createConversation "1" initialState)).currentConversation.map Conversation.title)
      = some "New Chat" ∧
    claimC1Title
        [{ id := "a", role := Role.assistant, content := MessageContent.str "ok" },
         { id := "b", role := Role.user, content := MessageContent.str "hi" }] = "hi" ∧
    ("New Chat" : String) ≠ "hi" :=
  ⟨by decide, by decide, by decide⟩

/-- C2 counterexample: the claim fails as stated. On a 401 response whose body
is the JSON object with error message "Incorrect API key", the client does fail
with exactly that message — but the caller's substring matching looks for
"401" / "Unauthorized" (then "429", "500"/"502"/"503", "model") inside the
message, none of which occurs in "Incorrect API key", so the user-facing string
is the raw message and does not begin with "Invalid API key". -/
theorem invalid_key_mapping_counterexample :
    completionsCreate
        { model := "gpt-4o-mini", messages := [], max_tokens := none,
          temperature := none, top_p := none, frequency_penalty := none,
          presence_penalty := none, stream := none }
        (FetchResult.response
          { status := 401, statusText := "Unauthorized",
            errorMessage := some "Incorrect API key",
            payload := Except.error "not a completion" })
      = Except.error "Incorrect API key" ∧
    ¬ ("Invalid API key".data <+: (mapSendError "gpt-4o-mini" "Incorrect API key").data) :=
  ⟨rfl, by decide⟩

/-- C2 (amended): on a 401 response with body error message "Incorrect API
key", the client fails with exactly "Incorrect API key"; the send-message
caller's substring matching finds none of its patterns in that message, so the
synthetic assistant message it appends shows the raw message: its content is
the string "⚠️ Error: Incorrect API key" (not the "Invalid API key ..."
user-facing string, which is selected only when the message contains "401" or
"Unauthorized"). -/
theorem invalid_key_raw_message :
    completionsCreate
        { model := "gpt-4o-mini", messages := [], max_tokens := none,
          temperature := none, top_p := none, frequency_penalty := none,
          presence_penalty := none, stream := none }
        (FetchResult.response
          { status := 401, statusText := "Unauthorized",
            errorMessage := some "Incorrect API key",
            payload := Except.error "not a completion" })
      = Except.error "Incorrect API key" ∧
    mapSendError "gpt-4o-mini" "Incorrect API key" = "Incorrect API key" ∧
    (errorAssistantMessage "2" (mapSendError "gpt-4o-mini" "Incorrect API key")).content
      = MessageContent.str "⚠️ Error: Incorrect API key" ∧
    mapSendError "gpt-4o-mini" "HTTP 401: Unauthorized"
      = "Invalid API key. Please check your API key and try again." :=
  ⟨rfl, by decide, by decide, by decide⟩

/-- C5: validateApiKey resolves to true exactly when the models-listing call
settles without failing and to false exactly on a failure; the failure's
reason is discarded, never propagated (the result is a total Bool). -/
theorem validateApiKey_spec (o : FetchResult ModelsHttpResponse) :
    (validateApiKey o = true ↔ ∃ v, modelsList o = Except.ok v) ∧
    (validateApiKey o = false ↔ ∃ e, modelsList o = Except.error e) := by
  unfold validateApiKey
  cases hm : modelsList o with
  | ok v => simp
  | error e => simp

/-- Witness for C5 at a concrete input: against an endpoint returning 401,
validateApiKey resolves to false. -/
theorem validateApiKey_spec_witness :
    validateApiKey (FetchResult.response { status := 401, bodyParse := Except.ok () }) = false :=
  (validateApiKey_spec
      (FetchResult.response { status := 401, bodyParse := Except.ok () })).2.mpr
    ⟨"Failed to fetch models", rfl⟩

/-- C9 counterexample: the claim fails as stated. For options that set none of
the optional sampling fields — exactly what the chat screen passes — the JSON
text sent carries only model, messages and max_tokens: JSON.stringify drops
every key whose value is undefined, so "temperature" is among the claim's
field set but absent from the sent body. -/
theorem sent_keys_counterexample :
    "temperature" ∈ ["model", "messages", "max_tokens", "temperature", "top_p",
        "frequency_penalty", "presence_penalty"] ∧
    "temperature" ∉ sentRequestKeys
        { model := "gpt-4o-mini", messages := [], max_tokens := none,
          temperature := none, top_p := none, frequency_penalty := none,
          presence_penalty := none, stream := none } :=
  ⟨by decide, by decide⟩

/-- C9 (amended): for every options value, the fields of the JSON request body
sent by chat.completions.create form a subset of model, messages, max_tokens,
temperature, top_p, frequency_penalty, presence_penalty; model, messages and
max_tokens are always present, each of the four optional sampling fields is
present exactly when it is set in the options, and the stream field accepted by
ChatCompletionOptions is never forwarded. -/
theorem sent_keys_spec (o : ChatCompletionOptions) :
    sentRequestKeys o ⊆
      ["model", "messages", "max_tokens", "temperature", "top_p",
       "frequency_penalty", "presence_penalty"] ∧
    "model" ∈ sentRequestKeys o ∧
    "messages" ∈ sentRequestKeys o ∧
    "max_tokens" ∈ sentRequestKeys o ∧
    "stream" ∉ sentRequestKeys o ∧
    ("temperature" ∈ sentRequestKeys o ↔ o.temperature.isSome = true) ∧
    ("top_p" ∈ sentRequestKeys o ↔ o.top_p.isSome = true) ∧
    ("frequency_penalty" ∈ sentRequestKeys o ↔ o.frequency_penalty.isSome = true) ∧
    ("presence_penalty" ∈ sentRequestKeys o ↔ o.presence_penalty.isSome = true) := by
  obtain ⟨mo, ms, mt, t, tp, fp, pp, st⟩ := o
  cases t <;> cases tp <;> cases fp <;> cases pp <;>
    simp [sentRequestKeys, chatCompletionRequestBody, List.subset_def]

/-- Witness for C9 at a concrete input: with only temperature set, the sent
body carries the temperature field. -/
theorem sent_keys_spec_witness :
    "temperature" ∈ sentRequestKeys
        { model := "gpt-4o-mini", messages := [], max_tokens := none,
          temperature := some 1, top_p := none, frequency_penalty := none,
          presence_penalty := none, stream := some true } :=
  ((sent_keys_spec
      { model := "gpt-4o-mini", messages := [], max_tokens := none,
        temperature := some 1, top_p := none, frequency_penalty := none,
        presence_penalty := none, stream := some true }).2.2.2.2.2.1).mpr rfl

/-- C10: the request body's max_tokens is 4096 whenever the option is absent or
equal to 0 (the default is applied by JavaScript falsiness, so an explicit 0 is
replaced), and is the provided value whenever that value is non-zero. -/
theorem max_tokens_default (o : ChatCompletionOptions) :
    ((o.max_tokens = none ∨ o.max_tokens = some 0) →
        (chatCompletionRequestBody o).max_tokens = 4096) ∧
    (∀ n : Int, o.max_tokens = some n → n ≠ 0 →
        (chatCompletionRequestBody o).max_tokens = n) := by
  constructor
  · rintro (h | h) <;> simp [chatCompletionRequestBody, jsOrInt, h]
  · intro n h hn
    simp [chatCompletionRequestBody, jsOrInt, h, hn]

/-- Witness for C10 at concrete inputs: an explicit 0 becomes 4096, an explicit
7 stays 7. -/
theorem max_tokens_default_witness :
    (chatCompletionRequestBody
        { model := "m", messages := [], max_tokens := some 0,
          temperature := none, top_p := none, frequency_penalty := none,
          presence_penalty := none, stream := none }).max_tokens = 4096 ∧
    (chatCompletionRequestBody
        { model := "m", messages := [], max_tokens := some 7,
          temperature := none, top_p := none, frequency_penalty := none,
          presence_penalty := none, stream := none }).max_tokens = 7 :=
  ⟨(max_tokens_default
      { model := "m", messages := [], max_tokens := some 0,
        temperature := none, top_p := none, frequency_penalty := none,
        presence_penalty := none, stream := none }).1 (Or.inr rfl),
   (max_tokens_default
      { model := "m", messages := [], max_tokens := some 7,
        temperature := none, top_p := none, frequency_penalty := none,
        presence_penalty := none, stream := none }).2 7 rfl (by decide)⟩

end ChatApp
